import Mathlib

/-!
Shallow embedding of the patch-batch application engine and the process
execution / output-streaming subsystem of `src/scripts/build-auto.py`
(MNT Pocket Reform kernel auto-build script).

Modelling conventions:
* Machine-level process execution is replaced by a `ProcBehavior` record
  giving, for one external process invocation, its exit code, its captured
  standard output / standard error (captured mode), and the merged list of
  output lines as they arrive (streamed mode).
* Python exceptions (`BuildError`) are modelled with `Except`.
* The logging subsystem (`setup_logging`, lines 95-116) attaches two
  handlers to the logger: a console handler at level INFO and a file
  handler on the session log file at level DEBUG.  A call
  `logger.log(level, msg)` therefore produces a console event when
  `level ≥ INFO` and a session-log append when `level ≥ DEBUG`; the
  handlers fire in the order they were added (console first).  Timestamp
  formatting is not modelled; events carry the level tag and message.
* Filesystem paths are modelled as lists of path components relative to
  the patch-set root (`RelPath`); the diagnostic artifact `failed.log` is
  modelled as an `Option String` (absent / present-with-content).
-/

namespace BuildAuto

/-- Python `logging` levels used by the script (numeric values as in the
`logging` module). -/
inductive LogLevel
  | debug
  | info
  | warning
  | error
deriving DecidableEq, Repr

/-- Numeric value of a level, as in Python's `logging` module. -/
def LogLevel.levelno : LogLevel → Nat
  | .debug => 10
  | .info => 20
  | .warning => 30
  | .error => 40

/-- One record handed to the logger: a level and a message. -/
structure LogRecord where
  level : LogLevel
  msg : String
deriving DecidableEq, Repr

/-- Observable logging / file side effects of the script, in order of
occurrence.  `shown` is the console (interactive) handler writing to
stdout; `appended` is the logger's file handler appending a formatted
record to the session log file; `rawAppended` is the direct
`logfile.write(line)` performed by the streamed branch of `run_command`
on the same session log file. -/
inductive LogEvent
  | shown (r : LogRecord)
  | appended (r : LogRecord)
  | rawAppended (line : String)
deriving DecidableEq, Repr

/-- Events produced by one `logger.<level>(msg)` call under the handler
configuration installed by `setup_logging`: the console handler (level
INFO) fires first, then the file handler (level DEBUG). -/
def loggerEmit (lv : LogLevel) (msg : String) : List LogEvent :=
  (if 20 ≤ lv.levelno then [LogEvent.shown ⟨lv, msg⟩] else [])
    ++ (if 10 ≤ lv.levelno then [LogEvent.appended ⟨lv, msg⟩] else [])

/-- Python whitespace characters stripped by `str.strip` / `str.rstrip`. -/
def pyIsSpace (c : Char) : Bool :=
  c = ' ' || c = '\t' || c = '\n' || c = '\r' || c = '\x0b' || c = '\x0c'

/-- Python `str.rstrip()`. -/
def pyRstrip (s : String) : String := s.dropRightWhile pyIsSpace

/-- Python `str.strip()`. -/
def pyStrip (s : String) : String := (s.dropRightWhile pyIsSpace).dropWhile pyIsSpace

/-- Python `f"{x}"` on an optional string: `None` prints as `"None"`. -/
def pyStr : Option String → String
  | none => "None"
  | some s => s

/-- Python `' '.join(cmd)`. -/
def joinSpace (cmd : List String) : String := String.intercalate " " cmd

/-- Model of `subprocess.CompletedProcess` as used by the script: argument
vector, exit code, and optional captured stdout/stderr (in streamed mode
the script builds one with `stdout=None, stderr=None`, line 218). -/
structure CompletedProcess where
  args : List String
  returncode : Nat
  stdout : Option String
  stderr : Option String
deriving DecidableEq, Repr

/-- Model of the script's `BuildError` exception (carries its message). -/
structure BuildError where
  msg : String
deriving DecidableEq, Repr

/-- Behaviour of one external process invocation, supplied by the
environment: exit code, captured stdout and stderr (captured mode), and
the merged stdout+stderr lines in arrival order (streamed mode, where
`stderr=subprocess.STDOUT` merges the two streams). -/
structure ProcBehavior where
  exitCode : Nat
  stdout : String
  stderr : String
  outLines : List String
deriving DecidableEq, Repr

/-- Embedding of `KernelBuilder.run_command` (lines 152-219).  Returns the
result (or the raised `BuildError`) together with the ordered list of
observable logging / session-log side effects.

Captured mode (`stream_output = false`): `subprocess.run` with
`capture_output=True, check=check`; a non-zero exit under `check` raises
`CalledProcessError`, which the script converts to `BuildError` after
logging four error records; otherwise the captured output is debug-logged
(when non-empty) and the result returned.

Streamed mode (`stream_output = true`): for each arriving line the script
calls `logger.info(line.rstrip())` and then `logfile.write(line)`; after
the process exits it raises `BuildError` iff `check` and the exit code is
non-zero, and otherwise returns a `CompletedProcess` whose `stdout` and
`stderr` are `None`.  Failure to deliver the input payload is swallowed
by the script and needs no modelling in a pure setting. -/
def run_command (cmd : List String) (check : Bool) (input_data : Option String)
    (stream_output : Bool) (proc : ProcBehavior) :
    Except BuildError CompletedProcess × List LogEvent :=
  let dbg := loggerEmit .debug ("Running: " ++ joinSpace cmd)
  if stream_output = false then
    if check = true ∧ proc.exitCode ≠ 0 then
      (Except.error ⟨"Command failed: " ++ joinSpace cmd⟩,
        dbg ++ loggerEmit .error ("Command failed: " ++ joinSpace cmd)
          ++ loggerEmit .error ("Exit code: " ++ toString proc.exitCode)
          ++ loggerEmit .error ("stdout: " ++ proc.stdout)
          ++ loggerEmit .error ("stderr: " ++ proc.stderr))
    else
      (Except.ok ⟨cmd, proc.exitCode, some proc.stdout, some proc.stderr⟩,
        dbg ++ (if proc.stdout ≠ "" then loggerEmit .debug ("stdout: " ++ pyStrip proc.stdout) else [])
          ++ (if proc.stderr ≠ "" then loggerEmit .debug ("stderr: " ++ pyStrip proc.stderr) else []))
  else
    let streamed := proc.outLines.flatMap fun line =>
      loggerEmit .info (pyRstrip line) ++ [LogEvent.rawAppended line]
    if proc.exitCode ≠ 0 ∧ check = true then
      (Except.error ⟨"Command failed (exit " ++ toString proc.exitCode ++ "): " ++ joinSpace cmd⟩,
        dbg ++ streamed)
    else
      (Except.ok ⟨cmd, proc.exitCode, none, none⟩, dbg ++ streamed)

/-- Does this event append a line to the session log file?  Both the
logger's file handler and the direct `logfile.write` target the same
file, `config.log_file`. -/
def isSessionAppend : LogEvent → Bool
  | .shown _ => false
  | .appended _ => true
  | .rawAppended _ => true

/-- Number of lines appended to the session log file by a list of events. -/
def sessionAppendCount (es : List LogEvent) : Nat := (es.filter isSessionAppend).length

/-- The raw (unformatted) lines appended to the session log, in order. -/
def rawLines (es : List LogEvent) : List String :=
  es.filterMap fun e =>
    match e with
    | .rawAppended l => some l
    | _ => none

/-- Whether an `Except` value is the raised-exception case. -/
def exceptIsError {ε α : Type} : Except ε α → Bool
  | .error _ => true
  | .ok _ => false

/-- Embedding of `PatchStats` (lines 124-140): success and failure
counters plus the ordered list of failed patch names. -/
structure PatchStats where
  success : Nat
  failed : Nat
  failed_patches : List String
deriving DecidableEq, Repr

/-- Fresh `PatchStats()` (constructor, lines 126-129). -/
def PatchStats.init : PatchStats := ⟨0, 0, []⟩

/-- Derived property `total` (lines 131-133). -/
def PatchStats.total (s : PatchStats) : Nat := s.success + s.failed

/-- `PatchStats.add_success` (lines 135-136). -/
def PatchStats.add_success (s : PatchStats) : PatchStats :=
  { s with success := s.success + 1 }

/-- `PatchStats.add_failure` (lines 138-140). -/
def PatchStats.add_failure (s : PatchStats) (patch_name : String) : PatchStats :=
  { s with failed := s.failed + 1, failed_patches := s.failed_patches ++ [patch_name] }

/-- One abstract operation on the statistics tracker, for stating
invariants over arbitrary operation sequences. -/
inductive StatsOp
  | addSuccess
  | addFailure (name : String)
deriving DecidableEq, Repr

/-- Run a sequence of tracker operations from a given state. -/
def runOps (s : PatchStats) : List StatsOp → PatchStats
  | [] => s
  | .addSuccess :: ops => runOps s.add_success ops
  | .addFailure n :: ops => runOps (s.add_failure n) ops

/-- Python `c * 60` separator line. -/
def sepLine (c : Char) : String := String.mk (List.replicate 60 c)

/-- Embedding of `KernelBuilder._format_failed_patch` (lines 321-329):
the fixed-format diagnostic block for one failed patch.  Note that the
`result.stdout` / `result.stderr` fields are rendered with Python's
f-string semantics, so an absent field prints as `"None"`. -/
def format_failed_patch (patch_name : String) (result : CompletedProcess) : String :=
  sepLine '=' ++ "\n" ++ "Failed patch: " ++ patch_name ++ "\n" ++ sepLine '-' ++ "\n"
    ++ pyStr result.stdout ++ "\n" ++ pyStr result.stderr ++ "\n"

/-- A file path as the list of its components relative to a root, e.g.
`["sub", "a.patch"]` for `sub/a.patch`. -/
abbrev RelPath := List String

/-- Python `Path.name`: the final path component. -/
def baseName (p : RelPath) : String := p.getLastD ""

/-- Whether a path matches the `rglob("*.patch")` pattern: final
component ends in `.patch` (suffix test spelled out on the character
list so that it evaluates by kernel reduction). -/
def hasPatchExt (p : RelPath) : Bool :=
  (String.data ".patch").isSuffixOf (baseName p).data

/-- Strict lexicographic comparison of character lists by code point
(Python `str < str`). -/
def charsLt : List Char → List Char → Bool
  | _, [] => false
  | [], _ :: _ => true
  | a :: as, b :: bs => if a < b then true else if b < a then false else charsLt as bs

/-- Python string `<`: lexicographic by code point. -/
def strLt (a b : String) : Bool := charsLt a.data b.data

/-- Python `PurePath` ordering: paths compare by their tuple of
components, lexicographically, each component compared as a string
(`sorted()` on `Path` values uses exactly this order). -/
def pathLe : RelPath → RelPath → Bool
  | [], _ => true
  | _ :: _, [] => false
  | a :: as, b :: bs => if strLt a b then true else if strLt b a then false else pathLe as bs

/-- Embedding of discovery, line 250:
`sorted(self.config.patches_dir.rglob("*.patch"))` — recursively
collected files with the patch extension, sorted by Python `Path`
ordering.  The argument is the snapshot of files (as relative component
paths) present under the patch-set root. -/
def discoverPatches (fileSet : List RelPath) : List RelPath :=
  (fileSet.filter hasPatchExt).mergeSort pathLe

/-- The full relative path of a file as one string, components joined by
`/`. -/
def relPathStr (p : RelPath) : String := String.intercalate "/" p

/-- Ordering named by the specification: ascending by full relative path
under byte-lexicographic order (on ASCII paths, code-point order and
byte order coincide). -/
def specByteLexLe (a b : RelPath) : Bool := !(strLt (relPathStr b) (relPathStr a))

/-- The two steps of the per-patch protocol. -/
inductive PatchStep
  | dryRun
  | realApply
deriving DecidableEq, Repr

/-- Command vector of the dry-run step (line 277). -/
def patchDryRunCmd : List String := ["patch", "-p1", "--dry-run"]

/-- Command vector of the real-application step (line 286). -/
def patchApplyCmd : List String := ["patch", "-p1"]

/-- Environment for one batch: the content of each patch file and the
behaviour of the external `patch` tool for each (patch, step) pair. -/
structure PatchEnv where
  content : RelPath → String
  behavior : RelPath → PatchStep → ProcBehavior

/-- Exit code of the dry-run step for a patch. -/
def dryExit (env : PatchEnv) (p : RelPath) : Nat := (env.behavior p .dryRun).exitCode

/-- Exit code of the real-application step for a patch. -/
def applyExit (env : PatchEnv) (p : RelPath) : Nat := (env.behavior p .realApply).exitCode

/-- One issued invocation of the external patch tool, recorded for the
batch trace: which step, for which patch file, with which stdin payload. -/
structure PatchInvocation where
  step : PatchStep
  patch : RelPath
  input : String
deriving DecidableEq, Repr

/-- Per-patch outcome tag, mirroring the three branches of the loop body
(lines 292-302): success (line 293), real application rejected
(lines 296-298), dry run rejected (lines 300-302). -/
inductive PatchOutcome
  | success (name : String)
  | failedDryRun (name : String)
  | failedApply (name : String)
deriving DecidableEq, Repr

/-- Embedding of the per-patch loop of `KernelBuilder.apply_patches`
(lines 267-302), accumulating the statistics tracker, the
`failed_log_entries` list, the outcome tags, and the trace of issued
tool invocations.  Both `run_command` calls use `check=False` and
streamed output; a `BuildError` raised by `run_command` would propagate
(`Except` bind). -/
def applyLoop (env : PatchEnv) (ps : List RelPath) (stats : PatchStats)
    (entries : List String) (outcomes : List PatchOutcome) (trace : List PatchInvocation) :
    Except BuildError (PatchStats × List String × List PatchOutcome × List PatchInvocation) :=
  match ps with
  | [] => Except.ok (stats, entries, outcomes, trace)
  | patch_file :: rest =>
    let patch_name := baseName patch_file
    let patch_content := env.content patch_file
    match (run_command patchDryRunCmd false (some patch_content) true
        (env.behavior patch_file .dryRun)).1 with
    | .error e => Except.error e
    | .ok dry_run_result =>
      let trace := trace ++ [⟨PatchStep.dryRun, patch_file, patch_content⟩]
      if dry_run_result.returncode = 0 then
        match (run_command patchApplyCmd false (some patch_content) true
            (env.behavior patch_file .realApply)).1 with
        | .error e => Except.error e
        | .ok apply_result =>
          let trace := trace ++ [⟨PatchStep.realApply, patch_file, patch_content⟩]
          if apply_result.returncode = 0 then
            applyLoop env rest stats.add_success entries
              (outcomes ++ [PatchOutcome.success patch_name]) trace
          else
            applyLoop env rest (stats.add_failure patch_name)
              (entries ++ [format_failed_patch patch_name apply_result])
              (outcomes ++ [PatchOutcome.failedApply patch_name]) trace
      else
        applyLoop env rest (stats.add_failure patch_name)
          (entries ++ [format_failed_patch patch_name dry_run_result])
          (outcomes ++ [PatchOutcome.failedDryRun patch_name]) trace

/-- Result of one batch: final statistics, the diagnostic artifact
`failed.log` after the run (`none` = absent), outcome tags and the
invocation trace. -/
structure BatchResult where
  stats : PatchStats
  artifact : Option String
  outcomes : List PatchOutcome
  trace : List PatchInvocation
deriving DecidableEq, Repr

/-- Embedding of `KernelBuilder.apply_patches` (lines 245-319).
`prevArtifact` is the state of `failed.log` left by a previous run.

Faithful control flow: discovery (line 250); early return with a fresh
`PatchStats()` when no patches are found (lines 252-254) — note this
early return happens BEFORE the stale `failed.log` removal (lines
261-263), so in that case `prevArtifact` survives; otherwise the stale
artifact is removed, the loop runs, and `failed.log` is written iff
`failed_log_entries` is non-empty (lines 304-307), with entries joined
by `'\n'`. -/
def apply_patches (fileSet : List RelPath) (env : PatchEnv) (prevArtifact : Option String) :
    Except BuildError BatchResult :=
  let patch_files := discoverPatches fileSet
  if patch_files = [] then
    Except.ok ⟨PatchStats.init, prevArtifact, [], []⟩
  else
    match applyLoop env patch_files PatchStats.init [] [] [] with
    | .error e => Except.error e
    | .ok (stats, entries, outcomes, trace) =>
      Except.ok ⟨stats,
        if entries ≠ [] then some (String.intercalate "\n" entries) else none,
        outcomes, trace⟩

/-! ### Closed forms for the batch loop -/

/-- A patch fails (in either step) iff not both exit codes are zero. -/
def patchFails (env : PatchEnv) (p : RelPath) : Bool :=
  if dryExit env p = 0 then (if applyExit env p = 0 then false else true) else true

/-- A patch ends in `Success` iff the dry run and the real application
both exit zero. -/
def patchSucceeds (env : PatchEnv) (p : RelPath) : Bool :=
  if dryExit env p = 0 then (if applyExit env p = 0 then true else false) else false

/-- Outcome tag of one patch under an environment, following the branch
structure of the loop body. -/
def patchOutcome (env : PatchEnv) (p : RelPath) : PatchOutcome :=
  if dryExit env p = 0 then
    (if applyExit env p = 0 then PatchOutcome.success (baseName p)
     else PatchOutcome.failedApply (baseName p))
  else PatchOutcome.failedDryRun (baseName p)

/-- The tool invocations issued for one patch: always the dry run, and
the real application exactly when the dry run exited zero. -/
def invsFor (env : PatchEnv) (p : RelPath) : List PatchInvocation :=
  ⟨PatchStep.dryRun, p, env.content p⟩ ::
    (if dryExit env p = 0 then [⟨PatchStep.realApply, p, env.content p⟩] else [])

/-- The diagnostic block actually written for a failed patch: because the
failing step ran in streamed mode, its result carries no captured output
and both output fields render as the literal text `None`. -/
def entryText (patch_name : String) : String :=
  sepLine '=' ++ "\n" ++ "Failed patch: " ++ patch_name ++ "\n" ++ sepLine '-' ++ "\n"
    ++ "None" ++ "\n" ++ "None" ++ "\n"

/-- The `failed_log_entries` list accumulated over a discovered list. -/
def batchEntries (env : PatchEnv) (ds : List RelPath) : List String :=
  (ds.filter (patchFails env)).map fun p => entryText (baseName p)

/-- The final statistics of a batch over a discovered list. -/
def batchStats (env : PatchEnv) (ds : List RelPath) : PatchStats :=
  ⟨(ds.filter (patchSucceeds env)).length,
   (ds.filter (patchFails env)).length,
   (ds.filter (patchFails env)).map baseName⟩

/-- The abbreviated per-line event triple emitted by the streaming loop:
interactive display, formatted session-log append (by the logger's file
handler, in the same `logger.info` call), then the raw session-log
append (`logfile.write`). -/
def streamTriple (line : String) : List LogEvent :=
  [LogEvent.shown ⟨LogLevel.info, pyRstrip line⟩,
   LogEvent.appended ⟨LogLevel.info, pyRstrip line⟩,
   LogEvent.rawAppended line]

/-- The specification's description of one failure block: full-width
separator, the patch-name line, a second separator, then the combined
diagnostic output captured during the failing step. -/
def specFailedBlock (patch_name combined : String) : String :=
  sepLine '=' ++ "\n" ++ "Failed patch: " ++ patch_name ++ "\n" ++ sepLine '-' ++ "\n"
    ++ combined ++ "\n"

/-- Environment for a single patch whose dry run is rejected (exit 1)
with the given streamed combined output lines. -/
def env1 (lines : List String) : PatchEnv :=
  ⟨fun _ => "--- a/file\n+++ b/file\n", fun _ _ => ⟨1, "", "", lines⟩⟩

/-- Environment with every invocation succeeding and producing no
output. -/
def env0 : PatchEnv := ⟨fun _ => "", fun _ _ => ⟨0, "", "", []⟩⟩

/-- The file set refuting the claimed byte-lexicographic full-path
ordering: Python `Path` ordering compares component tuples, so the
directory entry `a/b.patch` sorts before the file `a-x.patch`, while
byte-lexicographic full-path ordering puts `a-x.patch` first
(`'-'` = 0x2D sorts before `'/'` = 0x2F). -/
def fsC6 : List RelPath := [["a-x.patch"], ["a", "b.patch"]]

/-- Environment for a single patch whose dry run passes and whose real
application is rejected. -/
def env7 : PatchEnv :=
  ⟨fun _ => "x-content", fun _ step =>
    match step with
    | PatchStep.dryRun => ⟨0, "", "", ["checking file f"]⟩
    | PatchStep.realApply => ⟨1, "", "", ["1 out of 1 hunk FAILED"]⟩⟩

/-- Number of real-application invocations issued for a given patch in a
trace. -/
def applyInvCount (p : RelPath) (trace : List PatchInvocation) : Nat :=
  (trace.filter fun i => i.step == PatchStep.realApply && i.patch == p).length

/-- Environment in which every patch's dry run is rejected. -/
def env10 : PatchEnv := ⟨fun _ => "c", fun _ _ => ⟨1, "", "", ["FAILED"]⟩⟩

/-- The two-subdirectory patch set with a shared filename. -/
def fsC10 : List RelPath := [["a", "fix.patch"], ["b", "fix.patch"]]

/-! ### Supporting lemmas -/

theorem format_failed_patch_streamed (patch_name : String) (args : List String) (code : Nat) :
    format_failed_patch patch_name ⟨args, code, none, none⟩ = entryText patch_name := rfl

/-- Under `check=False` the streamed `run_command` never raises and
returns a result with `stdout = stderr = None`. -/
theorem run_command_lenient_streamed (cmd : List String) (input_data : Option String)
    (proc : ProcBehavior) :
    (run_command cmd false input_data true proc).1 =
      Except.ok ⟨cmd, proc.exitCode, none, none⟩ := by
  simp [run_command]

/-- Closed form of the per-patch loop: it never raises, and its four
accumulators are each a simple function of the patch list and the
environment. -/
theorem applyLoop_eq (env : PatchEnv) (ps : List RelPath) (stats : PatchStats)
    (entries : List String) (outcomes : List PatchOutcome) (trace : List PatchInvocation) :
    applyLoop env ps stats entries outcomes trace = Except.ok
      (⟨stats.success + (ps.filter (patchSucceeds env)).length,
        stats.failed + (ps.filter (patchFails env)).length,
        stats.failed_patches ++ (ps.filter (patchFails env)).map baseName⟩,
       entries ++ (ps.filter (patchFails env)).map (fun p => entryText (baseName p)),
       outcomes ++ ps.map (patchOutcome env),
       trace ++ ps.flatMap (invsFor env)) := by
  induction ps generalizing stats entries outcomes trace with
  | nil => simp [applyLoop]
  | cons p rest ih =>
    rw [applyLoop]
    simp only [run_command_lenient_streamed]
    by_cases hd : (env.behavior p PatchStep.dryRun).exitCode = 0
    · by_cases ha : (env.behavior p PatchStep.realApply).exitCode = 0
      · simp only [hd, if_pos rfl, ha, ite_true, ih, format_failed_patch_streamed]
        simp [patchSucceeds, patchFails, patchOutcome, invsFor, dryExit, applyExit, hd, ha,
          PatchStats.add_success, Nat.add_assoc, Nat.add_comm, Nat.add_left_comm]
      · simp only [hd, if_pos rfl, ha, ite_false, ih, format_failed_patch_streamed]
        simp [patchSucceeds, patchFails, patchOutcome, invsFor, dryExit, applyExit, hd, ha,
          PatchStats.add_failure, Nat.add_assoc, Nat.add_comm, Nat.add_left_comm]
    · simp only [hd, ite_false, ih, format_failed_patch_streamed]
      simp [patchSucceeds, patchFails, patchOutcome, invsFor, dryExit, applyExit, hd,
        PatchStats.add_failure, Nat.add_assoc, Nat.add_comm, Nat.add_left_comm]

/-! ### Order facts for the discovery comparison -/

theorem charsLt_nil_right (as : List Char) : charsLt as [] = false := by
  cases as <;> rfl

theorem charsLt_trans : ∀ {a b c : List Char},
    charsLt a b = true → charsLt b c = true → charsLt a c = true
  | _, _, [], _, h2 => by rw [charsLt_nil_right] at h2; exact absurd h2 (by simp)
  | [], _, _ :: _, _, _ => rfl
  | _ :: _, [], _ :: _, h1, _ => by rw [charsLt_nil_right] at h1; exact absurd h1 (by simp)
  | a :: as, b :: bs, c :: cs, h1, h2 => by
    simp only [charsLt] at h1 h2 ⊢
    by_cases hab : a < b
    · by_cases hbc : b < c
      · simp [lt_trans hab hbc]
      · by_cases hcb : c < b
        · simp [hbc, hcb] at h2
        · have : b = c := le_antisymm (not_lt.mp hcb) (not_lt.mp hbc)
          subst this
          simp [hab]
    · by_cases hba : b < a
      · simp [hab, hba] at h1
      · have : a = b := le_antisymm (not_lt.mp hba) (not_lt.mp hab)
        subst this
        by_cases hbc : a < c
        · simp [hbc]
        · by_cases hcb : c < a
          · simp [hbc, hcb] at h2
          · have : a = c := le_antisymm (not_lt.mp hcb) (not_lt.mp hbc)
            subst this
            simp [hbc, hcb] at h1 h2 ⊢
            exact charsLt_trans h1 h2

theorem charsLt_asymm : ∀ {a b : List Char},
    charsLt a b = true → charsLt b a = false
  | _, [], h => by rw [charsLt_nil_right] at h; exact absurd h (by simp)
  | [], _ :: _, _ => by rw [charsLt_nil_right]
  | a :: as, b :: bs, h => by
    simp only [charsLt] at h ⊢
    by_cases hab : a < b
    · simp [lt_asymm hab, hab]
    · by_cases hba : b < a
      · simp [hab, hba] at h
      · have : a = b := le_antisymm (not_lt.mp hba) (not_lt.mp hab)
        subst this
        simp [hab] at h ⊢
        exact charsLt_asymm h

theorem charsLt_eq_of_not : ∀ {a b : List Char},
    charsLt a b = false → charsLt b a = false → a = b
  | [], [], _, _ => rfl
  | [], _ :: _, h1, _ => by exact absurd h1 (by simp [charsLt])
  | _ :: _, [], _, h2 => by exact absurd h2 (by simp [charsLt])
  | a :: as, b :: bs, h1, h2 => by
    simp only [charsLt] at h1 h2
    by_cases hab : a < b
    · simp [hab] at h1
    · by_cases hba : b < a
      · simp [hab, hba] at h1 h2
      · have hh : a = b := le_antisymm (not_lt.mp hba) (not_lt.mp hab)
        subst hh
        simp [hab] at h1 h2
        rw [charsLt_eq_of_not h1 h2]

theorem strLt_trans {a b c : String} (h1 : strLt a b = true) (h2 : strLt b c = true) :
    strLt a c = true := charsLt_trans h1 h2

theorem strLt_asymm {a b : String} (h : strLt a b = true) : strLt b a = false :=
  charsLt_asymm h

theorem strLt_eq_of_not {a b : String} (h1 : strLt a b = false) (h2 : strLt b a = false) :
    a = b := by
  cases a with
  | mk da =>
    cases b with
    | mk db => exact congrArg String.mk (charsLt_eq_of_not h1 h2)

theorem pathLe_refl : ∀ (a : RelPath), pathLe a a = true
  | [] => rfl
  | a :: as => by
    simp only [pathLe]
    by_cases h : strLt a a = true
    · simp [h]
    · simp [eq_false_of_ne_true h, pathLe_refl as]

theorem pathLe_total : ∀ (a b : RelPath), pathLe a b = true ∨ pathLe b a = true
  | [], _ => Or.inl rfl
  | _ :: _, [] => Or.inr rfl
  | a :: as, b :: bs => by
    simp only [pathLe]
    by_cases hab : strLt a b = true
    · left; simp [hab]
    · by_cases hba : strLt b a = true
      · right; simp [hba]
      · have h1 := eq_false_of_ne_true hab
        have h2 := eq_false_of_ne_true hba
        rcases pathLe_total as bs with h | h <;> [left; right] <;> simp [h1, h2, h]

theorem pathLe_trans : ∀ {a b c : RelPath},
    pathLe a b = true → pathLe b c = true → pathLe a c = true
  | [], _, _, _, _ => rfl
  | _ :: _, [], _, h1, _ => by exact absurd h1 (by simp [pathLe])
  | _ :: _, _ :: _, [], _, h2 => by exact absurd h2 (by simp [pathLe])
  | a :: as, b :: bs, c :: cs, h1, h2 => by
    simp only [pathLe] at h1 h2 ⊢
    by_cases hab : strLt a b = true
    · by_cases hbc : strLt b c = true
      · simp [strLt_trans hab hbc]
      · by_cases hcb : strLt c b = true
        · simp [eq_false_of_ne_true hbc, hcb] at h2
        · have : b = c := strLt_eq_of_not (eq_false_of_ne_true hbc) (eq_false_of_ne_true hcb)
          subst this
          simp [hab]
    · by_cases hba : strLt b a = true
      · simp [eq_false_of_ne_true hab, hba] at h1
      · have : a = b := strLt_eq_of_not (eq_false_of_ne_true hab) (eq_false_of_ne_true hba)
        subst this
        by_cases hbc : strLt a c = true
        · simp [hbc]
        · by_cases hcb : strLt c a = true
          · simp [eq_false_of_ne_true hbc, hcb] at h2
          · have : a = c := strLt_eq_of_not (eq_false_of_ne_true hbc) (eq_false_of_ne_true hcb)
            subst this
            simp [eq_false_of_ne_true hbc, eq_false_of_ne_true hcb] at h1 h2 ⊢
            exact pathLe_trans h1 h2

theorem pathLe_antisymm : ∀ {a b : RelPath},
    pathLe a b = true → pathLe b a = true → a = b
  | [], [], _, _ => rfl
  | [], _ :: _, _, h2 => by exact absurd h2 (by simp [pathLe])
  | _ :: _, [], h1, _ => by exact absurd h1 (by simp [pathLe])
  | a :: as, b :: bs, h1, h2 => by
    simp only [pathLe] at h1 h2
    by_cases hab : strLt a b = true
    · rw [strLt_asymm hab, hab] at h2
      simp at h2
    · by_cases hba : strLt b a = true
      · simp [eq_false_of_ne_true hab, hba] at h1
      · have hh : a = b := strLt_eq_of_not (eq_false_of_ne_true hab) (eq_false_of_ne_true hba)
        subst hh
        simp [eq_false_of_ne_true hab] at h1 h2
        rw [pathLe_antisymm h1 h2]

/-- The discovery output is sorted under the Python `Path` ordering. -/
theorem discoverPatches_sorted (fileSet : List RelPath) :
    (discoverPatches fileSet).Pairwise (fun a b => pathLe a b = true) :=
  @List.sorted_mergeSort RelPath pathLe
    (fun _ _ _ h1 h2 => pathLe_trans h1 h2)
    (fun a b => by rcases pathLe_total a b with h | h <;> simp [h])
    (fileSet.filter hasPatchExt)

/-- Discovery returns exactly the files with the patch extension. -/
theorem discoverPatches_perm (fileSet : List RelPath) :
    (discoverPatches fileSet).Perm (fileSet.filter hasPatchExt) :=
  List.mergeSort_perm _ _

/-- Evaluation principle for `discoverPatches` on concrete file sets:
the output is the unique `pathLe`-sorted permutation of the filtered
set. -/
theorem discoverPatches_eq_of {s L : List RelPath}
    (hperm : (s.filter hasPatchExt).Perm L)
    (hsort : L.Pairwise (fun a b => pathLe a b = true)) :
    discoverPatches s = L := by
  haveI : IsAntisymm RelPath (fun a b => pathLe a b = true) := ⟨fun _ _ => pathLe_antisymm⟩
  exact List.eq_of_perm_of_sorted ((discoverPatches_perm s).trans hperm)
    (discoverPatches_sorted s) hsort

/-! ### Closed form of apply_patches -/

/-- With no discovered patches, `apply_patches` returns early with fresh
statistics and — the stale-artifact removal being unreachable — leaves
the previous artifact in place. -/
theorem apply_patches_empty {fileSet : List RelPath} (env : PatchEnv) (prev : Option String)
    (h : discoverPatches fileSet = []) :
    apply_patches fileSet env prev = Except.ok ⟨PatchStats.init, prev, [], []⟩ := by
  unfold apply_patches
  rw [h]
  simp

/-- With at least one discovered patch, `apply_patches` returns the
closed-form batch result; the previous artifact does not appear. -/
theorem apply_patches_eq {fileSet : List RelPath} (env : PatchEnv) (prev : Option String)
    (h : discoverPatches fileSet ≠ []) :
    apply_patches fileSet env prev = Except.ok
      ⟨batchStats env (discoverPatches fileSet),
       if batchEntries env (discoverPatches fileSet) ≠ [] then
         some (String.intercalate "\n" (batchEntries env (discoverPatches fileSet)))
       else none,
       (discoverPatches fileSet).map (patchOutcome env),
       (discoverPatches fileSet).flatMap (invsFor env)⟩ := by
  unfold apply_patches
  rw [if_neg h, applyLoop_eq]
  simp [batchStats, batchEntries, PatchStats.init]

theorem intercalate_singleton (sep s : String) : String.intercalate sep [s] = s := rfl

/-- A patch succeeds exactly when it does not fail. -/
theorem patchSucceeds_eq_not_fails (env : PatchEnv) (p : RelPath) :
    patchSucceeds env p = !patchFails env p := by
  unfold patchSucceeds patchFails
  by_cases h1 : dryExit env p = 0 <;> by_cases h2 : applyExit env p = 0 <;> simp [h1, h2]

/-- Success count plus failure count equals the number of discovered
patches. -/
theorem batchStats_total (env : PatchEnv) (ds : List RelPath) :
    (batchStats env ds).total = ds.length := by
  unfold batchStats PatchStats.total
  simp only [List.filter_congr (fun p _ => patchSucceeds_eq_not_fails env p)]
  rw [Nat.add_comm]
  exact (List.length_eq_length_filter_add (patchFails env)).symm

/-! ### Streamed-mode event accounting -/

/-- Event trace of a streamed `run_command`: one DEBUG command echo
(appended to the session log only, since the console handler level is
INFO), then the per-line triple for each output line in arrival order. -/
theorem run_command_streamed_events (cmd : List String) (check : Bool)
    (input_data : Option String) (proc : ProcBehavior) :
    (run_command cmd check input_data true proc).2 =
      LogEvent.appended ⟨LogLevel.debug, "Running: " ++ joinSpace cmd⟩ ::
        proc.outLines.flatMap streamTriple := by
  unfold run_command
  split
  · simp at *
  · split <;> simp [loggerEmit, LogLevel.levelno] <;> rfl

theorem rawLines_streamTriple (lines : List String) :
    rawLines (lines.flatMap streamTriple) = lines := by
  induction lines with
  | nil => rfl
  | cons l ls ih =>
    simp only [List.flatMap_cons, rawLines, List.filterMap_append] at ih ⊢
    rw [ih]
    rfl

theorem sessionAppendCount_streamTriple (lines : List String) :
    sessionAppendCount (lines.flatMap streamTriple) = 2 * lines.length := by
  induction lines with
  | nil => rfl
  | cons l ls ih =>
    simp only [List.flatMap_cons, sessionAppendCount, List.filter_append,
      List.length_append] at ih ⊢
    rw [ih]
    simp [streamTriple, isSessionAppend]
    omega

theorem rawLines_cons_appended (r : LogRecord) (rest : List LogEvent) :
    rawLines (LogEvent.appended r :: rest) = rawLines rest := rfl

theorem sessionAppendCount_cons_appended (r : LogRecord) (rest : List LogEvent) :
    sessionAppendCount (LogEvent.appended r :: rest) = sessionAppendCount rest + 1 := by
  simp [sessionAppendCount, isSessionAppend, List.filter_cons]

/-! ### Claim theorems -/

/-- Claim C8: `run_command` raises `BuildError` on a non-zero exit code
iff the invocation is strict (`check=True`); under `check=False` the
non-zero exit code comes back as data in the returned result, in both
captured and streamed mode (spawning itself is assumed to succeed, as in
the claim). -/
theorem claim8_raise_iff_strict_nonzero (cmd : List String) (check : Bool)
    (input_data : Option String) (stream_output : Bool) (proc : ProcBehavior) :
    exceptIsError (run_command cmd check input_data stream_output proc).1 = true ↔
      check = true ∧ proc.exitCode ≠ 0 := by
  cases stream_output <;> by_cases hc : check = true <;> by_cases he : proc.exitCode = 0 <;>
    simp [run_command, exceptIsError, hc, he]

/-- Claim C4 (counterexample): a streamed command whose process emits
exactly one output line results in three lines appended to the session
log file — the DEBUG command echo written by the logger's file handler,
the INFO-tagged copy of the line written by the same file handler, and
the raw copy written by `logfile.write` — not exactly one line as the
claim states. -/
theorem claim4_counterexample :
    sessionAppendCount
        (run_command ["make"] false none true ⟨0, "", "", ["hello"]⟩).2 = 3 ∧
    ([("hello" : String)]).length = 1 ∧ (3 : Nat) ≠ 1 :=
  ⟨by decide, rfl, by decide⟩

/-- Claim C4 (amended): for a streamed command emitting K output lines,
the session log receives `1 + 2 * K` appended lines: a DEBUG echo of the
command, then, for each output line in arrival order, one INFO-tagged
formatted copy (written by the logger's file handler in the same
`logger.info` call that shows the line interactively, the display
preceding it) and one raw copy (written after the display).  The raw
copies are exactly the K arrived lines, in order, none dropped or
duplicated. -/
theorem claim4_streamed_log_accounting (cmd : List String) (check : Bool)
    (input_data : Option String) (proc : ProcBehavior) :
    (run_command cmd check input_data true proc).2 =
      LogEvent.appended ⟨LogLevel.debug, "Running: " ++ joinSpace cmd⟩ ::
        proc.outLines.flatMap streamTriple ∧
    rawLines (run_command cmd check input_data true proc).2 = proc.outLines ∧
    sessionAppendCount (run_command cmd check input_data true proc).2 =
      1 + 2 * proc.outLines.length := by
  have he := run_command_streamed_events cmd check input_data proc
  refine ⟨he, ?_, ?_⟩
  · rw [he, rawLines_cons_appended]
    exact rawLines_streamTriple proc.outLines
  · rw [he, sessionAppendCount_cons_appended, sessionAppendCount_streamTriple]
    omega

theorem discover_single_x :
    discoverPatches [[("x.patch" : String)]] = [["x.patch"]] :=
  discoverPatches_eq_of (by decide) (by decide)

theorem discover_single_x_ne : discoverPatches [[("x.patch" : String)]] ≠ [] := by
  rw [discover_single_x]
  simp

/-- Claim C1: the diagnostic artifact block for a failed patch does NOT
contain the combined output captured during the failing step.  The
failing step runs through the streamed `run_command`, whose result
carries `stdout = stderr = None` (line 218), so `_format_failed_patch`
renders the literal text `None` twice (f-string of `None`).  First
conjunct: the artifact is invariant under changing the diagnostic output
of the failing step.  Second: concrete evaluation showing the block ends
in `None\nNone` rather than the captured output.  Third: the written
block differs from the block the specification describes. -/
theorem claim1_diagnostic_has_no_captured_output :
    (∀ lines lines' : List String,
      apply_patches [["x.patch"]] (env1 lines) none =
        apply_patches [["x.patch"]] (env1 lines') none) ∧
    apply_patches [["x.patch"]] (env1 ["1 out of 1 hunk FAILED"]) none =
      Except.ok ⟨⟨0, 1, ["x.patch"]⟩, some (entryText "x.patch"),
        [PatchOutcome.failedDryRun "x.patch"],
        [⟨PatchStep.dryRun, ["x.patch"], "--- a/file\n+++ b/file\n"⟩]⟩ ∧
    entryText "x.patch" ≠ specFailedBlock "x.patch" "1 out of 1 hunk FAILED" := by
  have heval : ∀ lines : List String,
      apply_patches [["x.patch"]] (env1 lines) none =
        Except.ok ⟨⟨0, 1, ["x.patch"]⟩, some (entryText "x.patch"),
          [PatchOutcome.failedDryRun "x.patch"],
          [⟨PatchStep.dryRun, ["x.patch"], "--- a/file\n+++ b/file\n"⟩]⟩ := by
    intro lines
    rw [apply_patches_eq (env1 lines) none discover_single_x_ne, discover_single_x]
    simp [batchStats, batchEntries, patchFails, patchSucceeds, patchOutcome, invsFor,
      dryExit, applyExit, env1, entryText, baseName, intercalate_singleton]
  refine ⟨fun lines lines' => (heval lines).trans (heval lines').symm, heval _, ?_⟩
  decide

/-- Claim C3 (counterexample): with zero discovered patches — a run in
which, vacuously, every patch succeeds — a diagnostic artifact left by a
previous run is NOT deleted: the early return (lines 252-254) happens
before the stale `failed.log` removal (lines 261-263), so the stale
artifact survives the run. -/
theorem claim3_counterexample :
    apply_patches [] env0 (some "stale failure data") =
      Except.ok ⟨PatchStats.init, some "stale failure data", [], []⟩ ∧
    (some "stale failure data" : Option String) ≠ none := by
  refine ⟨apply_patches_empty env0 _ (discoverPatches_eq_of (by decide) (by decide)), by simp⟩

/-- Claim C3 (amended): when at least one patch is discovered, the
pre-existing diagnostic artifact is deleted before processing — the
run's result is independent of it — and after the run the artifact
exists iff at least one patch failed.  (When zero patches are
discovered the early return skips the deletion and a stale artifact
survives; see the counterexample.) -/
theorem claim3_artifact_lifecycle (fileSet : List RelPath) (env : PatchEnv)
    (prevA prevB : Option String) (h : discoverPatches fileSet ≠ []) :
    apply_patches fileSet env prevA = apply_patches fileSet env prevB ∧
    (∀ r : BatchResult, apply_patches fileSet env prevA = Except.ok r →
      (r.artifact ≠ none ↔ r.stats.failed ≠ 0)) := by
  rw [apply_patches_eq env prevA h, apply_patches_eq env prevB h]
  refine ⟨rfl, ?_⟩
  intro r hr
  injection hr with hr
  subst hr
  by_cases hbe : batchEntries env (discoverPatches fileSet) = []
  · have hf : (discoverPatches fileSet).filter (patchFails env) = [] :=
      List.map_eq_nil_iff.mp hbe
    simp [hbe, batchStats, hf]
  · have hf : (discoverPatches fileSet).filter (patchFails env) ≠ [] := by
      intro hc
      exact hbe (by simp [batchEntries, hc])
    simp only [batchStats, hbe, if_pos (by simpa using hbe)]
    refine iff_of_true (by simp) ?_
    simpa [List.length_eq_zero] using hf

theorem claim3_artifact_lifecycle_witness :
    apply_patches [["x.patch"]] env0 (some "stale failure data") =
      apply_patches [["x.patch"]] env0 none :=
  (claim3_artifact_lifecycle [["x.patch"]] env0 (some "stale failure data") none
    discover_single_x_ne).1

/-- Claim C6 (counterexample): discovery output is not sorted by
byte-lexicographic full relative path. -/
theorem claim6_counterexample :
    discoverPatches fsC6 = [["a", "b.patch"], ["a-x.patch"]] ∧
    ¬ List.Pairwise (fun a b => specByteLexLe a b = true) (discoverPatches fsC6) := by
  have hd : discoverPatches fsC6 = [["a", "b.patch"], ["a-x.patch"]] :=
    discoverPatches_eq_of (by decide) (by decide)
  exact ⟨hd, by rw [hd]; decide⟩

/-- Claim C6 (amended): discovery is a pure function of the on-disk
patch set — any two snapshots holding the same files (as multisets)
yield the identical sequence — and that sequence contains exactly the
patch-extension files, sorted ascending by the sequence of relative-path
components under componentwise lexicographic comparison (Python's
`Path` ordering), not by byte-lexicographic full-path order. -/
theorem claim6_discovery_deterministic_sorted (s t : List RelPath) (h : s.Perm t) :
    discoverPatches s = discoverPatches t ∧
    List.Pairwise (fun a b => pathLe a b = true) (discoverPatches s) ∧
    (discoverPatches s).Perm (s.filter hasPatchExt) := by
  haveI : IsAntisymm RelPath (fun a b => pathLe a b = true) := ⟨fun _ _ => pathLe_antisymm⟩
  exact ⟨List.eq_of_perm_of_sorted
      ((discoverPatches_perm s).trans ((h.filter hasPatchExt).trans (discoverPatches_perm t).symm))
      (discoverPatches_sorted s) (discoverPatches_sorted t),
    discoverPatches_sorted s, discoverPatches_perm s⟩

theorem claim6_discovery_deterministic_sorted_witness :
    discoverPatches fsC6 = discoverPatches [["a", "b.patch"], ["a-x.patch"]] :=
  (claim6_discovery_deterministic_sorted fsC6 [["a", "b.patch"], ["a-x.patch"]]
    (by decide)).1

/-- Claim C7: for the batch `[x.patch]` whose dry run exits zero but
whose real application exits non-zero, the report is
`{success=0, failure=1, failed=["x.patch"]}` and the outcome is tagged
`failedApply`, not `failedDryRun`; both steps were invoked, in order. -/
theorem claim7_apply_failure_tagged_failed_apply :
    apply_patches [["x.patch"]] env7 none = Except.ok
      ⟨⟨0, 1, ["x.patch"]⟩, some (entryText "x.patch"),
       [PatchOutcome.failedApply "x.patch"],
       [⟨PatchStep.dryRun, ["x.patch"], "x-content"⟩,
        ⟨PatchStep.realApply, ["x.patch"], "x-content"⟩]⟩ := by
  rw [apply_patches_eq env7 none discover_single_x_ne, discover_single_x]
  simp [batchStats, batchEntries, patchFails, patchSucceeds, patchOutcome, invsFor,
    dryExit, applyExit, env7, entryText, baseName, intercalate_singleton]

theorem applyInvCount_flatMap_zero (env : PatchEnv) (p : RelPath) (h : dryExit env p ≠ 0)
    (ds : List RelPath) : applyInvCount p (ds.flatMap (invsFor env)) = 0 := by
  induction ds with
  | nil => rfl
  | cons q ds ih =>
    have hq : (invsFor env q).filter
        (fun i => i.step == PatchStep.realApply && i.patch == p) = [] := by
      by_cases hqp : q = p
      · subst hqp
        simp [invsFor, h]
      · by_cases hdq : dryExit env q = 0 <;> simp [invsFor, hdq, hqp]
    simp only [List.flatMap_cons, applyInvCount, List.filter_append, List.length_append,
      hq] at ih ⊢
    simpa using ih

/-- The final statistics of any completed batch, in closed form. -/
theorem apply_patches_stats (fileSet : List RelPath) (env : PatchEnv)
    (prev : Option String) (r : BatchResult)
    (hr : apply_patches fileSet env prev = Except.ok r) :
    r.stats.failed_patches =
      ((discoverPatches fileSet).filter (patchFails env)).map baseName ∧
    r.stats.total = (discoverPatches fileSet).length ∧
    r.stats.failed = ((discoverPatches fileSet).filter (patchFails env)).length ∧
    r.outcomes = (discoverPatches fileSet).map (patchOutcome env) := by
  by_cases h : discoverPatches fileSet = []
  · rw [apply_patches_empty env prev h] at hr
    injection hr with hr
    subst hr
    exact ⟨by simp [h, PatchStats.init], by simp [h, PatchStats.init, PatchStats.total],
      by simp [h, PatchStats.init], by simp [h]⟩
  · rw [apply_patches_eq env prev h] at hr
    injection hr with hr
    subst hr
    exact ⟨rfl, batchStats_total env _, rfl, rfl⟩

/-- Claim C2: a patch whose dry run exits non-zero never has the
real-application step invoked for it (zero apply invocations in the
trace), is recorded as a failure, and conversely every real-application
invocation in the trace belongs to a patch whose dry run exited zero. -/
theorem claim2_dry_run_gates_apply (fileSet : List RelPath) (env : PatchEnv)
    (prev : Option String) (r : BatchResult)
    (hr : apply_patches fileSet env prev = Except.ok r) :
    (∀ p : RelPath, dryExit env p ≠ 0 → applyInvCount p r.trace = 0) ∧
    (∀ inv ∈ r.trace, inv.step = PatchStep.realApply → dryExit env inv.patch = 0) ∧
    (∀ p ∈ discoverPatches fileSet, dryExit env p ≠ 0 →
      baseName p ∈ r.stats.failed_patches) := by
  have hnames := (apply_patches_stats fileSet env prev r hr).1
  have htrace : r.trace = (discoverPatches fileSet).flatMap (invsFor env) := by
    by_cases h : discoverPatches fileSet = []
    · rw [apply_patches_empty env prev h] at hr
      injection hr with hr
      subst hr
      simp [h]
    · rw [apply_patches_eq env prev h] at hr
      injection hr with hr
      subst hr
      rfl
  refine ⟨?_, ?_, ?_⟩
  · intro p hp
    rw [htrace]
    exact applyInvCount_flatMap_zero env p hp _
  · intro inv hinv hstep
    rw [htrace] at hinv
    rw [List.mem_flatMap] at hinv
    obtain ⟨q, _, hmem⟩ := hinv
    unfold invsFor at hmem
    rcases List.mem_cons.mp hmem with hh | ht
    · rw [hh] at hstep
      exact absurd hstep (by simp)
    · by_cases hdq : dryExit env q = 0
      · rw [if_pos hdq] at ht
        rcases List.mem_singleton.mp ht with rfl
        exact hdq
      · rw [if_neg hdq] at ht
        exact absurd ht (List.not_mem_nil inv)
  · intro p hp hdry
    rw [hnames]
    have hf : patchFails env p = true := by
      unfold patchFails
      simp [hdry]
    exact List.mem_map_of_mem baseName (List.mem_filter.mpr ⟨hp, hf⟩)

/-- Evaluation of the one-failing-patch batch used by several witnesses:
dry run exits 1, so the single patch is recorded as a dry-run failure
and only the dry-run step is ever invoked. -/
theorem env1_eval (lines : List String) :
    apply_patches [["x.patch"]] (env1 lines) none = Except.ok
      ⟨⟨0, 1, ["x.patch"]⟩, some (entryText "x.patch"),
       [PatchOutcome.failedDryRun "x.patch"],
       [⟨PatchStep.dryRun, ["x.patch"], "--- a/file\n+++ b/file\n"⟩]⟩ := by
  rw [apply_patches_eq (env1 lines) none discover_single_x_ne, discover_single_x]
  simp [batchStats, batchEntries, patchFails, patchSucceeds, patchOutcome, invsFor,
    dryExit, applyExit, env1, entryText, baseName, intercalate_singleton]

theorem claim2_dry_run_gates_apply_witness :
    applyInvCount ["x.patch"]
      (BatchResult.trace ⟨⟨0, 1, ["x.patch"]⟩, some (entryText "x.patch"),
        [PatchOutcome.failedDryRun "x.patch"],
        [⟨PatchStep.dryRun, ["x.patch"], "--- a/file\n+++ b/file\n"⟩]⟩) = 0 :=
  (claim2_dry_run_gates_apply [["x.patch"]] (env1 []) none _ (env1_eval [])).1
    ["x.patch"] (by decide)

/-- Claim C5: a per-patch failure never escapes the batch loop — for
every file set and environment `apply_patches` completes with a report
(never an error), every discovered patch is processed (the totals and
the outcome list cover all of them), and failures appear only as data in
the report. -/
theorem claim5_patch_failures_never_escape (fileSet : List RelPath) (env : PatchEnv)
    (prev : Option String) :
    ∃ r : BatchResult, apply_patches fileSet env prev = Except.ok r ∧
      r.stats.total = (discoverPatches fileSet).length ∧
      r.outcomes = (discoverPatches fileSet).map (patchOutcome env) ∧
      r.stats.failed_patches =
        ((discoverPatches fileSet).filter (patchFails env)).map baseName := by
  by_cases h : discoverPatches fileSet = []
  · refine ⟨_, apply_patches_empty env prev h, ?_⟩
    exact ⟨by simp [h, PatchStats.init, PatchStats.total], by simp [h], by simp [h, PatchStats.init]⟩
  · refine ⟨_, apply_patches_eq env prev h, batchStats_total env _, rfl, rfl⟩

theorem runOps_invariant (s : PatchStats) (h : s.failed = s.failed_patches.length) :
    ∀ ops : List StatsOp, (runOps s ops).failed = (runOps s ops).failed_patches.length := by
  intro ops
  induction ops generalizing s with
  | nil => exact h
  | cons op ops ih =>
    cases op with
    | addSuccess => exact ih _ h
    | addFailure n =>
      refine ih _ ?_
      simp [PatchStats.add_failure, h]

/-- Claim C9: tracker invariants.  For every operation sequence from a
fresh tracker, `total = success + failed` and the failure counter equals
the length of the failed-names list; and in a batch run the tracker is
updated exactly once per discovered patch (total = number discovered)
with the failed names being the failing patches' names in discovery
order. -/
theorem claim9_stats_invariants :
    (∀ ops : List StatsOp,
      (runOps PatchStats.init ops).total =
        (runOps PatchStats.init ops).success + (runOps PatchStats.init ops).failed ∧
      (runOps PatchStats.init ops).failed =
        (runOps PatchStats.init ops).failed_patches.length) ∧
    (∀ (fileSet : List RelPath) (env : PatchEnv) (prev : Option String) (r : BatchResult),
      apply_patches fileSet env prev = Except.ok r →
        r.stats.total = (discoverPatches fileSet).length ∧
        r.stats.failed = r.stats.failed_patches.length ∧
        r.stats.failed_patches =
          ((discoverPatches fileSet).filter (patchFails env)).map baseName) := by
  constructor
  · intro ops
    exact ⟨rfl, runOps_invariant PatchStats.init rfl ops⟩
  · intro fileSet env prev r hr
    obtain ⟨h1, h2, h3, _⟩ := apply_patches_stats fileSet env prev r hr
    refine ⟨h2, ?_, h1⟩
    rw [h1, h3, List.length_map]

theorem claim9_stats_invariants_witness :
    (BatchResult.stats ⟨⟨0, 1, ["x.patch"]⟩, some (entryText "x.patch"),
      [PatchOutcome.failedDryRun "x.patch"],
      [⟨PatchStep.dryRun, ["x.patch"], "--- a/file\n+++ b/file\n"⟩]⟩).total =
      (discoverPatches [["x.patch"]]).length :=
  (claim9_stats_invariants.2 [["x.patch"]] (env1 []) none _ (env1_eval [])).1

/-- Claim C10: the name recorded for a failed patch — both in the
report's failed list and in the diagnostic artifact's blocks — is the
file's basename (final path component) only, `patch_file.name` at line
268, not its path relative to the patch-set root.  First conjunct: the
report's failed list is the failing patches' basenames.  Second
conjunct: the artifact (for a run starting without a stale artifact) is
built exclusively from per-patch blocks `entryText (baseName p)`, i.e.
paths enter the artifact only through their basenames.  Third conjunct:
consequently, for the patch set `{a/fix.patch, b/fix.patch}` with both
patches failing, two distinct patches produce the identical pair of
failed-list entries and the identical pair of artifact blocks, which
cannot be told apart. -/
theorem claim10_failed_names_are_basenames :
    (∀ (fileSet : List RelPath) (env : PatchEnv) (prev : Option String) (r : BatchResult),
      apply_patches fileSet env prev = Except.ok r →
        r.stats.failed_patches =
          ((discoverPatches fileSet).filter (patchFails env)).map baseName) ∧
    (∀ (fileSet : List RelPath) (env : PatchEnv) (r : BatchResult),
      apply_patches fileSet env none = Except.ok r →
        r.artifact =
          if ((discoverPatches fileSet).filter (patchFails env)) ≠ [] then
            some (String.intercalate "\n"
              (((discoverPatches fileSet).filter (patchFails env)).map
                (fun p => entryText (baseName p))))
          else none) ∧
    (∃ r : BatchResult, apply_patches fsC10 env10 none = Except.ok r ∧
      r.stats.failed_patches = ["fix.patch", "fix.patch"] ∧
      r.artifact = some (String.intercalate "\n"
        [entryText "fix.patch", entryText "fix.patch"]) ∧
      (["a", "fix.patch"] : RelPath) ≠ ["b", "fix.patch"]) := by
  refine ⟨?_, ?_, ?_⟩
  · intro fileSet env prev r hr
    exact (apply_patches_stats fileSet env prev r hr).1
  · intro fileSet env r hr
    by_cases h : discoverPatches fileSet = []
    · rw [apply_patches_empty env none h] at hr
      injection hr with hr
      subst hr
      simp [h]
    · rw [apply_patches_eq env none h] at hr
      injection hr with hr
      subst hr
      by_cases hf : (discoverPatches fileSet).filter (patchFails env) = []
      · simp [batchEntries, hf]
      · simp [batchEntries, hf]
  · have hd : discoverPatches fsC10 = fsC10 :=
      discoverPatches_eq_of (by decide) (by decide)
    refine ⟨_, apply_patches_eq env10 none (by rw [hd]; simp [fsC10]), ?_, ?_, by simp [fsC10]⟩
    · rw [show (batchStats env10 (discoverPatches fsC10)).failed_patches =
          ((discoverPatches fsC10).filter (patchFails env10)).map baseName from rfl, hd]
      simp [fsC10, patchFails, dryExit, applyExit, env10, baseName]
    · have he : batchEntries env10 (discoverPatches fsC10) =
          [entryText "fix.patch", entryText "fix.patch"] := by
        rw [show batchEntries env10 (discoverPatches fsC10) =
            ((discoverPatches fsC10).filter (patchFails env10)).map
              (fun p => entryText (baseName p)) from rfl, hd]
        simp [fsC10, patchFails, dryExit, applyExit, env10, baseName]
      show (if batchEntries env10 (discoverPatches fsC10) ≠ [] then
          some (String.intercalate "\n" (batchEntries env10 (discoverPatches fsC10)))
        else none) = _
      rw [he]
      simp

theorem claim10_failed_names_are_basenames_witness :
    (BatchResult.artifact ⟨⟨0, 1, ["x.patch"]⟩, some (entryText "x.patch"),
      [PatchOutcome.failedDryRun "x.patch"],
      [⟨PatchStep.dryRun, ["x.patch"], "--- a/file\n+++ b/file\n"⟩]⟩) =
      if ((discoverPatches [["x.patch"]]).filter (patchFails (env1 []))) ≠ [] then
        some (String.intercalate "\n"
          (((discoverPatches [["x.patch"]]).filter (patchFails (env1 []))).map
            (fun p => entryText (baseName p))))
      else none :=
  claim10_failed_names_are_basenames.2.1 [["x.patch"]] (env1 []) _ (env1_eval [])

end BuildAuto
